import Mathlib

/-!
Shallow embedding of `docker-image-updater` (src/image-updater.js).

The Docker engine is external: its state is modelled as a list of containers
plus a local image cache (reference to content id).  Every engine call either
applies its nominal effect or fails; failures (network errors, name
conflicts, missing objects, ...) are injected through explicit fault flags,
one per call site, so that theorems quantify over all engine behaviours the
code can observe.  Container names are stored without the leading slash the
engine prepends in list results (the code strips it immediately).

Control flow is translated statement by statement from `image-updater.js`:
`updateImage` (the replacement), `checkIfImageNeedsUpdate` (drift
detection, with `getRemoteImageId`'s outcome folded in as a pull outcome),
and `checkForUpdates` (one reconciliation pass).  Two JavaScript facts the
embedding reproduces faithfully:

* `newC.start()` in `updateImage` is not awaited: its result never
  influences control flow, and its rejection is not handled, so a start
  failure cannot trigger the catch block;
* `return updateImage(...)` inside the `try` of `checkForUpdates` returns
  the promise without awaiting it, so a rejection of `updateImage` is NOT
  caught by that `try/catch` and the pass's own promise rejects
  (an async `return p` only adopts `p` after the frame has left the try).
  `updateImage` itself rejects when its initial inspect (outside its try)
  fails or when the rollback rename inside its catch fails.
-/

/-- Runtime configuration of a container as reported by inspect
(`containerData.Config`): image reference, environment, labels. -/
structure Config where
  Image : String
  Env : List String
  Labels : List (String × String)
  deriving DecidableEq, Repr

/-- Host-level configuration (`HostConfig`): port bindings and bind mounts. -/
structure HostConfig where
  PortBindings : List (String × String)
  Binds : List String
  deriving DecidableEq, Repr

/-- One container as the engine stores it.  `Image` is the content id of the
image the container was created from (inspect's `.Image`), while
`Config.Image` is the human-readable reference.  `NetworkSettingsPorts`
models inspect's `NetworkSettings.Ports`. -/
structure Container where
  Id : String
  name : String
  Config : Config
  HostConfig : HostConfig
  NetworkSettingsPorts : List (String × String)
  Image : String
  running : Bool
  deriving DecidableEq, Repr

/-- Engine state: containers plus the local image cache (reference to
content id). -/
structure DockerState where
  containers : List Container
  images : List (String × String)
  deriving DecidableEq, Repr

/-- Number of containers currently holding a given name. -/
def countName (s : DockerState) (n : String) : Nat :=
  s.containers.countP (fun c => c.name == n)

/-- Content id of the locally cached image under a reference, if any. -/
def lookupImage (s : DockerState) (ref : String) : Option String :=
  (s.images.find? (fun p => p.1 == ref)).map (fun p => p.2)

/-- Store a content id in the local image cache under a reference. -/
def setImage (s : DockerState) (ref id : String) : DockerState :=
  { s with images := (ref, id) :: s.images.filter (fun p => !(p.1 == ref)) }

/-- Nominal effect of `container.rename({name: new})`. -/
def renameContainer (s : DockerState) (o n : String) : DockerState :=
  { s with containers :=
      s.containers.map (fun c => if c.name == o then { c with name := n } else c) }

/-- Nominal effect of `container.stop()`. -/
def stopContainer (s : DockerState) (n : String) : DockerState :=
  { s with containers :=
      s.containers.map (fun c => if c.name == n then { c with running := false } else c) }

/-- Nominal effect of `container.start()`. -/
def startContainer (s : DockerState) (n : String) : DockerState :=
  { s with containers :=
      s.containers.map (fun c => if c.name == n then { c with running := true } else c) }

/-- Nominal effect of `container.remove()`. -/
def removeContainer (s : DockerState) (n : String) : DockerState :=
  { s with containers := s.containers.filter (fun c => !(c.name == n)) }

/-- The creation payload built in `updateImage`: the spreads of
`containerInfo` and `containerData.Config` followed by the forced fields.
`Id` leaks in from the `containerInfo` spread; `Image` and `name` are forced;
`HostConfig` is then overwritten wholesale with a fresh object holding only
`PortBindings: containerData.NetworkSettings.Ports` (so the inspected
`HostConfig.Binds` is not carried over: the fresh object has no such field,
modelled as the empty list). -/
structure CreatePayload where
  Id : String
  name : String
  Image : String
  Env : List String
  Labels : List (String × String)
  HostConfig : HostConfig
  deriving DecidableEq, Repr

/-- `createContainerPayload` from `updateImage`, lines 70-79 of the source. -/
def buildCreatePayload (containerInfo containerData : Container)
    (imageName targetName : String) : CreatePayload :=
  { Id := containerInfo.Id
    name := targetName
    Image := imageName
    Env := containerData.Config.Env
    Labels := containerData.Config.Labels
    HostConfig := { PortBindings := containerData.NetworkSettingsPorts, Binds := [] } }

/-- Nominal effect of `docker.createContainer(payload)`: a fresh container
(engine-assigned id, modelled deterministically) holding the payload's name
and configuration, created from the locally cached image under the payload's
reference, initially not running. -/
def createContainer (s : DockerState) (p : CreatePayload) : DockerState :=
  { s with containers := s.containers ++
      [{ Id := "created:" ++ p.name
         name := p.name
         Config := { Image := p.Image, Env := p.Env, Labels := p.Labels }
         HostConfig := p.HostConfig
         NetworkSettingsPorts := p.HostConfig.PortBindings
         Image := (lookupImage s p.Image).getD ""
         running := false }] }

/-- Fault injection for the engine calls `updateImage` makes, one flag per
call site (`rollbackRenameFail` is the rename inside the catch block). -/
structure Faults where
  inspectFail : Bool
  renameFail : Bool
  createFail : Bool
  stopFail : Bool
  startFail : Bool
  removeFail : Bool
  rollbackRenameFail : Bool
  deriving DecidableEq, Repr

/-- All engine calls succeed. -/
def noFaults : Faults :=
  { inspectFail := false, renameFail := false, createFail := false,
    stopFail := false, startFail := false, removeFail := false,
    rollbackRenameFail := false }

/-- An engine call as issued by `updateImage` (the pure payload construction
is not an engine call). -/
inductive EngineCall where
  | inspect (nm : String)
  | rename (o n : String)
  | create (nm img : String)
  | stop (nm : String)
  | start (nm : String)
  | remove (nm : String)
  deriving DecidableEq, Repr

/-- An issued engine call together with whether the code awaits its result
before proceeding.  Every call in `updateImage` is awaited except
`newC.start()`. -/
abbrev Step := EngineCall × Bool

/-- Which step's failure sent `updateImage` into its catch block. -/
inductive StepName where
  | rename
  | create
  | stop
  | remove
  deriving DecidableEq, Repr

/-- Errors with which the `updateImage` promise can reject. -/
inductive JsError where
  | noSuchContainer
  | inspectFailed
  | rollbackRenameFailed
  deriving DecidableEq, Repr

/-- How the `updateImage` promise settles: fulfilled after the full success
path, fulfilled after the catch block's rollback rename succeeded, or
rejected (initial inspect failed, or the rollback rename itself failed). -/
inductive UpdateOutcome where
  | completed
  | rolledBack (failed : StepName)
  | rejected (e : JsError)
  deriving DecidableEq, Repr

/-- The temporary name `targetName + "-old-temp"`. -/
def tempNameOf (t : String) : String := t ++ "-old-temp"

/-- The catch block of `updateImage`: rename `tempName` back to
`targetName`; if that rename fails its rejection escapes `updateImage`. -/
def rollbackStep (s : DockerState) (f : Faults) (targetName oldName : String)
    (tr : List Step) (failed : StepName) : DockerState × List Step × UpdateOutcome :=
  let tr := tr ++ [(.rename oldName targetName, true)]
  if f.rollbackRenameFail then
    (s, tr, .rejected .rollbackRenameFailed)
  else
    (renameContainer s oldName targetName, tr, .rolledBack failed)

/-- `updateImage(containerInfo, targetContainerName)`: inspect the target
(outside the try; a failure rejects), then rename it to the temp name, build
the creation payload, create the new container, stop the old one, issue the
unawaited start of the new one, and remove the old one; any failure of an
awaited call inside the try jumps to `rollbackStep`.  Returns the engine
state, the trace of issued calls, and how the promise settled. -/
def updateImage (s : DockerState) (f : Faults) (containerInfo : Container)
    (targetName : String) : DockerState × List Step × UpdateOutcome :=
  match s.containers.find? (fun c => c.name == targetName) with
  | none => (s, [(.inspect targetName, true)], .rejected .noSuchContainer)
  | some containerData =>
    if f.inspectFail then (s, [(.inspect targetName, true)], .rejected .inspectFailed)
    else
      let imageName := containerData.Config.Image
      let oldContainerName := tempNameOf targetName
      let tr0 : List Step := [(.inspect targetName, true)]
      let tr1 := tr0 ++ [(.rename targetName oldContainerName, true)]
      if f.renameFail then
        rollbackStep s f targetName oldContainerName tr1 .rename
      else
        let s1 := renameContainer s targetName oldContainerName
        let payload := buildCreatePayload containerInfo containerData imageName targetName
        let tr2 := tr1 ++ [(.create targetName imageName, true)]
        if f.createFail then
          rollbackStep s1 f targetName oldContainerName tr2 .create
        else
          let s2 := createContainer s1 payload
          let tr3 := tr2 ++ [(.stop oldContainerName, true)]
          if f.stopFail then
            rollbackStep s2 f targetName oldContainerName tr3 .stop
          else
            let s3 := stopContainer s2 oldContainerName
            let s4 := if f.startFail then s3 else startContainer s3 targetName
            let tr4 := tr3 ++ [(.start targetName, false)]
            let tr5 := tr4 ++ [(.remove oldContainerName, true)]
            if f.removeFail then
              rollbackStep s4 f targetName oldContainerName tr5 .remove
            else
              (removeContainer s4 oldContainerName, tr5, .completed)

/-- Outcome of `getRemoteImageId`'s pull as `checkIfImageNeedsUpdate`
observes it: `ok id` is a successful pull that leaves content `id` in the
local cache under the reference and resolves; `auth` (HTTP 401) and
`notFound` (HTTP 404) resolve null without touching the cache; `err` is any
other engine error, on which `getRemoteImageId` rejects (this also covers a
`followProgress` error, which rejects the same way). -/
inductive PullSpec where
  | ok (contentId : String)
  | auth
  | notFound
  | err
  deriving DecidableEq, Repr, Inhabited

/-- Fault injection for one run of `checkIfImageNeedsUpdate`: the container
inspect, the pull outcome, and the local image inspect (any failure of the
latter, a missing image included, lands in the inner catch). -/
structure DetectFaults where
  containerInspectFail : Bool
  pull : PullSpec
  imageInspectFail : Bool
  deriving DecidableEq, Repr, Inhabited

/-- Cache effect of the pull inside `getRemoteImageId`. -/
def afterPull (s : DockerState) (p : PullSpec) (ref : String) : DockerState :=
  match p with
  | .ok id => setImage s ref id
  | _ => s

/-- The tail of `checkIfImageNeedsUpdate` after the pull: look up the local
image (the inner try/catch turns any inspect failure into null), then
`if (localImageId && containerImageId !== localImageId) return true` else
false. -/
def detectLocal (s : DockerState) (f : DetectFaults) (containerImageId ref : String) :
    DockerState × Bool :=
  let localImageId := if f.imageInspectFail then none else lookupImage s ref
  match localImageId with
  | some lid => if containerImageId ≠ lid then (s, true) else (s, false)
  | none => (s, false)

/-- `checkIfImageNeedsUpdate(containerName)`: inspect the container, await
`getRemoteImageId` (whose rejection, like any other throw in the body, is
turned into `true` by the outer catch — the fail-safe), then compare the
container's image id with the locally cached one.  A missing container makes
the inspect reject, which the outer catch also turns into `true`. -/
def checkIfImageNeedsUpdate (s : DockerState) (f : DetectFaults) (containerName : String) :
    DockerState × Bool :=
  match s.containers.find? (fun c => c.name == containerName) with
  | none => (s, true)
  | some containerData =>
    if f.containerInspectFail then (s, true)
    else
      let containerImageId := containerData.Image
      let ref := containerData.Config.Image
      match f.pull with
      | .err => (s, true)
      | p => detectLocal (afterPull s p ref) f containerImageId ref

/-- `docker.listContainers()`: the running containers. -/
def listContainers (s : DockerState) : List Container :=
  s.containers.filter (fun c => c.running)

/-- How one reconciliation pass settles.  `listFailed` is a caught listing
error (the pass still resolves); `noneNeeded` means every listed container
was evaluated and none was flagged; `replaced nm out` means the first
container flagged was `nm` and `updateImage` ran on it with outcome `out`.
Because the pass returns the `updateImage` promise from inside its `try`
without awaiting it, a rejected outcome rejects the pass itself. -/
inductive PassResult where
  | listFailed
  | noneNeeded
  | replaced (nm : String) (out : UpdateOutcome)
  deriving DecidableEq, Repr

/-- Whether the pass's promise fulfills: every result except a rejected
replacement (whose rejection escapes the pass's try/catch). -/
def passResolves : PassResult → Bool
  | .replaced _ (.rejected _) => false
  | _ => true

/-- The `for` loop of `checkForUpdates`: evaluate drift detection on each
listed container in order (each container gets its own detection faults,
taken positionally); on the first flagged container run `updateImage` and
return.  Also returns the names evaluated, in order. -/
def passLoop (s : DockerState) (fs : List DetectFaults) (uf : Faults) :
    List Container → DockerState × List String × PassResult
  | [] => (s, [], .noneNeeded)
  | c :: rest =>
    let nm := c.name
    let r1 := checkIfImageNeedsUpdate s (fs.headD default) nm
    if r1.2 then
      let r2 := updateImage r1.1 uf c nm
      (r2.1, [nm], .replaced nm r2.2.2)
    else
      let r3 := passLoop r1.1 fs.tail uf rest
      (r3.1, nm :: r3.2.1, r3.2.2)

/-- `checkForUpdates()`: list the running containers and run the loop; a
listing failure is caught and the pass resolves. -/
def checkForUpdates (s : DockerState) (listFail : Bool) (fs : List DetectFaults)
    (uf : Faults) : DockerState × List String × PassResult :=
  if listFail then (s, [], .listFailed)
  else passLoop s fs uf (listContainers s)

/-! Concrete fixtures used by witnesses and counterexamples: a single
running container `web` on image reference `app:latest`, created from
content `sha:AAA`, in engine states whose local cache holds newer content
(`s0`), the same content (`sMatch`), or nothing (`sNoImage`). -/

/-- A running container with a bind mount and a port binding. -/
def web : Container :=
  { Id := "id0"
    name := "web"
    Config := { Image := "app:latest", Env := ["A=1"], Labels := [("l", "v")] }
    HostConfig := { PortBindings := [("80/tcp", "8080")], Binds := ["/data:/data"] }
    NetworkSettingsPorts := [("80/tcp", "8080")]
    Image := "sha:AAA"
    running := true }

/-- Engine state whose cache holds newer content under `web`'s reference. -/
def s0 : DockerState := { containers := [web], images := [("app:latest", "sha:BBB")] }

/-- Engine state whose cache holds exactly the content `web` runs. -/
def sMatch : DockerState := { containers := [web], images := [("app:latest", "sha:AAA")] }

/-- Engine state with an empty local image cache. -/
def sNoImage : DockerState := { containers := [web], images := [] }

/-- Only the unawaited start of the new container fails. -/
def startFailOnly : Faults := { noFaults with startFail := true }

/-- Only the removal of the old container fails. -/
def removeFailOnly : Faults := { noFaults with removeFail := true }

/-- Only the stop of the old container fails. -/
def stopFailOnly : Faults := { noFaults with stopFail := true }

/-- Only the creation of the new container fails. -/
def createFailOnly : Faults := { noFaults with createFail := true }

/-- Creating the new container fails and the rollback rename fails too. -/
def createAndRollbackFail : Faults :=
  { noFaults with createFail := true, rollbackRenameFail := true }

/-- All detection calls succeed; the registry has no such image (soft 404). -/
def detectOk : DetectFaults :=
  { containerInspectFail := false, pull := .notFound, imageInspectFail := false }

/-- Only the local image inspect fails. -/
def detectImageInspectFail : DetectFaults :=
  { containerInspectFail := false, pull := .notFound, imageInspectFail := true }

/-- The pull fails with an engine error that is neither 401 nor 404. -/
def detectPullErr : DetectFaults :=
  { containerInspectFail := false, pull := .err, imageInspectFail := false }

/-! Helper lemmas. -/

/-- A container name never equals its own temporary name. -/
theorem name_beq_tempNameOf (t : String) : (t == tempNameOf t) = false := by
  apply beq_eq_false_iff_ne.mpr
  intro h
  have hlen := congrArg String.length h
  rw [tempNameOf, String.length_append] at hlen
  have h9 : String.length "-old-temp" = 9 := rfl
  omega

/-- The symmetric orientation of `name_beq_tempNameOf`. -/
theorem tempNameOf_beq_name (t : String) : (tempNameOf t == t) = false := by
  apply beq_eq_false_iff_ne.mpr
  intro h
  exact beq_eq_false_iff_ne.mp (name_beq_tempNameOf t) h.symm

/-- The local comparison returns whatever state it was handed. -/
theorem detectLocal_fst (s : DockerState) (f : DetectFaults) (a b : String) :
    (detectLocal s f a b).1 = s := by
  unfold detectLocal
  cases hx : (if f.imageInspectFail = true then none else lookupImage s b) with
  | none => rfl
  | some lid =>
    show (if a ≠ lid then (s, true) else (s, false)).1 = s
    rw [apply_ite Prod.fst]
    simp

/-- Drift detection never touches containers (its only state effect is the
pull's cache update). -/
theorem checkIfImageNeedsUpdate_containers (s : DockerState) (f : DetectFaults)
    (n : String) : (checkIfImageNeedsUpdate s f n).1.containers = s.containers := by
  unfold checkIfImageNeedsUpdate
  cases hf : s.containers.find? (fun c => c.name == n) with
  | none => rfl
  | some cd =>
    simp only
    split
    · rfl
    · cases hp : f.pull <;> simp [detectLocal_fst, afterPull, setImage]

/-- On `noFaults` the replacement runs the whole success path: renamed, new
container created from the payload, old stopped, new started, old removed,
with the full awaited trace except the unawaited start. -/
theorem updateImage_noFaults_eq (s : DockerState) (info cd : Container) (t : String)
    (hfind : s.containers.find? (fun c => c.name == t) = some cd) :
    updateImage s noFaults info t =
      (removeContainer
        (startContainer
          (stopContainer
            (createContainer (renameContainer s t (tempNameOf t))
              (buildCreatePayload info cd cd.Config.Image t))
            (tempNameOf t))
          t)
        (tempNameOf t),
       [(EngineCall.inspect t, true),
        (EngineCall.rename t (tempNameOf t), true),
        (EngineCall.create t cd.Config.Image, true),
        (EngineCall.stop (tempNameOf t), true),
        (EngineCall.start t, false),
        (EngineCall.remove (tempNameOf t), true)],
       UpdateOutcome.completed) := by
  unfold updateImage
  rw [hfind]
  rfl

/-- What rename-to-temp, stop-temp, start-target, remove-temp do to the
pre-existing containers: everything named `t` or `temp` disappears (renamed
then removed, or removed as a leftover), everything else is untouched. -/
theorem rename_stop_start_remove_filter (t temp : String)
    (hne2 : (temp == t) = false) (L : List Container) :
    List.filter (fun c => !(c.name == temp))
      (List.map
        ((fun c : Container => if c.name == t then { c with running := true } else c) ∘
          (fun c : Container => if c.name == temp then { c with running := false } else c) ∘
          (fun c : Container => if c.name == t then { c with name := temp } else c)) L) =
    List.filter (fun c => !(c.name == t) && !(c.name == temp)) L := by
  induction L with
  | nil => rfl
  | cons c tl ih =>
    simp only [List.map_cons, List.filter_cons, Function.comp_apply]
    by_cases h1 : (c.name == t) = true
    · simp only [h1, if_true, beq_self_eq_true, if_pos, hne2, Bool.false_eq_true,
        if_false, Bool.not_true, Bool.false_and, Bool.not_false]
      exact ih
    · by_cases h2 : (c.name == temp) = true
      · simp only [h1, h2, Bool.false_eq_true, if_false, if_true, Bool.not_true,
          Bool.not_false, Bool.true_and]
        exact ih
      · simp only [h1, h2, Bool.false_eq_true, if_false, Bool.not_false, Bool.true_and]
        rw [ih]

/-- The container list after the success path: the containers that held
neither the target name nor the temporary name, unchanged, followed by the
started new container built from the payload. -/
theorem updateImage_success_containers (s : DockerState) (info cd : Container)
    (t : String) :
    (removeContainer
      (startContainer
        (stopContainer
          (createContainer (renameContainer s t (tempNameOf t))
            (buildCreatePayload info cd cd.Config.Image t))
          (tempNameOf t))
        t)
      (tempNameOf t)).containers =
    s.containers.filter (fun c => !(c.name == t) && !(c.name == tempNameOf t)) ++
      [{ Id := "created:" ++ t
         name := t
         Config := { Image := cd.Config.Image, Env := cd.Config.Env,
                     Labels := cd.Config.Labels }
         HostConfig := { PortBindings := cd.NetworkSettingsPorts, Binds := [] }
         NetworkSettingsPorts := cd.NetworkSettingsPorts
         Image := (lookupImage s cd.Config.Image).getD ""
         running := true }] := by
  simp only [renameContainer, createContainer, stopContainer, startContainer,
    removeContainer, buildCreatePayload, lookupImage, List.map_append,
    List.filter_append, List.map_map]
  congr 1
  · exact rename_stop_start_remove_filter t (tempNameOf t)
      (tempNameOf_beq_name t) s.containers
  · simp [name_beq_tempNameOf t]

/-! Claim C1. -/

/-- C1: when every step of the replacement succeeds, afterwards exactly one
container holds the logical name `targetName`, no container holds
`tempName` (`targetName + "-old-temp"`), and the container under
`targetName` is the newly created one: built by `createContainer` from the
record's image reference, i.e. from the locally cached content under that
reference. -/
theorem C1_successful_replace (s : DockerState) (info cd : Container) (t : String)
    (hfind : s.containers.find? (fun c => c.name == t) = some cd) :
    (updateImage s noFaults info t).2.2 = UpdateOutcome.completed ∧
    countName (updateImage s noFaults info t).1 t = 1 ∧
    countName (updateImage s noFaults info t).1 (tempNameOf t) = 0 ∧
    ∀ c ∈ (updateImage s noFaults info t).1.containers, c.name = t →
      c.Id = "created:" ++ t ∧ c.Config.Image = cd.Config.Image ∧
      c.Image = (lookupImage s cd.Config.Image).getD "" := by
  rw [updateImage_noFaults_eq s info cd t hfind]
  refine ⟨rfl, ?_, ?_, ?_⟩
  · show countName _ t = 1
    unfold countName
    rw [show (removeContainer _ _).containers = _ from
      updateImage_success_containers s info cd t]
    rw [List.countP_append]
    have h0 : List.countP (fun c => c.name == t)
        (s.containers.filter (fun c => !(c.name == t) && !(c.name == tempNameOf t))) = 0 := by
      rw [List.countP_eq_zero]
      intro a ha
      rw [List.mem_filter] at ha
      rw [Bool.and_eq_true, Bool.not_eq_true', Bool.not_eq_true'] at ha
      simp [ha.2.1]
    rw [h0]
    simp
  · show countName _ (tempNameOf t) = 0
    unfold countName
    rw [show (removeContainer _ _).containers = _ from
      updateImage_success_containers s info cd t]
    rw [List.countP_append]
    have h0 : List.countP (fun c => c.name == tempNameOf t)
        (s.containers.filter (fun c => !(c.name == t) && !(c.name == tempNameOf t))) = 0 := by
      rw [List.countP_eq_zero]
      intro a ha
      rw [List.mem_filter] at ha
      rw [Bool.and_eq_true, Bool.not_eq_true', Bool.not_eq_true'] at ha
      simp [ha.2.2]
    rw [h0]
    simp [name_beq_tempNameOf t]
  · intro c hc hname
    rw [show (removeContainer _ _).containers = _ from
      updateImage_success_containers s info cd t] at hc
    rcases List.mem_append.mp hc with h | h
    · rw [List.mem_filter, Bool.and_eq_true, Bool.not_eq_true', Bool.not_eq_true'] at h
      exact absurd h.2.1 (by simp [hname])
    · rw [List.mem_singleton] at h
      subst h
      exact ⟨rfl, rfl, rfl⟩

/-- C1 witness: the hypothesis holds and the conclusion follows at the
concrete state `s0`. -/
theorem C1_successful_replace_witness :
    (s0.containers.find? (fun c => c.name == "web") = some web) ∧
    ((updateImage s0 noFaults web "web").2.2 = UpdateOutcome.completed ∧
     countName (updateImage s0 noFaults web "web").1 "web" = 1 ∧
     countName (updateImage s0 noFaults web "web").1 (tempNameOf "web") = 0 ∧
     ∀ c ∈ (updateImage s0 noFaults web "web").1.containers, c.name = "web" →
       c.Id = "created:" ++ "web" ∧ c.Config.Image = web.Config.Image ∧
       c.Image = (lookupImage s0 web.Config.Image).getD "") :=
  ⟨by decide, C1_successful_replace s0 web web "web" (by decide)⟩

/-! Claim C2. -/

/-- C2 counterexample: on the all-success path the claim "no step begins
before the previous step's result is known" fails — the trace contains a
call whose result is not awaited before the next call is issued (the start
of the new container, issued before the removal of the old one). -/
theorem C2_counterexample_start_not_awaited :
    ¬ (∀ st ∈ (updateImage s0 noFaults web "web").2.1, st.2 = true) := by decide

/-- C2 (amended): within one replacement the engine calls are issued
strictly in the order inspect, rename-to-temp, create, stop-old, start-new,
remove-old (the payload construction between rename and create is pure);
every call is awaited before the next begins except the start of the new
container, which is issued after the stop completes but not awaited — in
particular the removal of the old container begins without the result of
the start being known. -/
theorem C2_amended_step_order (s : DockerState) (info cd : Container) (t : String)
    (hfind : s.containers.find? (fun c => c.name == t) = some cd) :
    (updateImage s noFaults info t).2.1 =
      [(EngineCall.inspect t, true),
       (EngineCall.rename t (tempNameOf t), true),
       (EngineCall.create t cd.Config.Image, true),
       (EngineCall.stop (tempNameOf t), true),
       (EngineCall.start t, false),
       (EngineCall.remove (tempNameOf t), true)] := by
  rw [updateImage_noFaults_eq s info cd t hfind]

/-- C2 witness: the amended ordering at the concrete state `s0`. -/
theorem C2_amended_step_order_witness :
    (s0.containers.find? (fun c => c.name == "web") = some web) ∧
    (updateImage s0 noFaults web "web").2.1 =
      [(EngineCall.inspect "web", true),
       (EngineCall.rename "web" (tempNameOf "web"), true),
       (EngineCall.create "web" web.Config.Image, true),
       (EngineCall.stop (tempNameOf "web"), true),
       (EngineCall.start "web", false),
       (EngineCall.remove (tempNameOf "web"), true)] :=
  ⟨by decide, C2_amended_step_order s0 web web "web" (by decide)⟩

/-! Fault-path shapes of `updateImage`, used by C3 and C4. -/

/-- When creating the new container fails (inspect and the first rename
having succeeded) and the rollback rename succeeds, the replacement is the
rename to the temporary name followed by the rename back. -/
theorem updateImage_createFail_eq (s : DockerState) (f : Faults) (info cd : Container)
    (t : String) (hfind : s.containers.find? (fun c => c.name == t) = some cd)
    (h1 : f.inspectFail = false) (h2 : f.renameFail = false)
    (h3 : f.createFail = true) (h4 : f.rollbackRenameFail = false) :
    updateImage s f info t =
      (renameContainer (renameContainer s t (tempNameOf t)) (tempNameOf t) t,
       [(EngineCall.inspect t, true),
        (EngineCall.rename t (tempNameOf t), true),
        (EngineCall.create t cd.Config.Image, true),
        (EngineCall.rename (tempNameOf t) t, true)],
       UpdateOutcome.rolledBack StepName.create) := by
  unfold updateImage
  rw [hfind]
  simp [h1, h2, h3, h4, rollbackStep]

/-- When stopping the old container fails (create having succeeded) and the
rollback rename succeeds, the replacement leaves the created container in
place and renames the old one back. -/
theorem updateImage_stopFail_eq (s : DockerState) (f : Faults) (info cd : Container)
    (t : String) (hfind : s.containers.find? (fun c => c.name == t) = some cd)
    (h1 : f.inspectFail = false) (h2 : f.renameFail = false)
    (h3 : f.createFail = false) (h5 : f.stopFail = true)
    (h4 : f.rollbackRenameFail = false) :
    updateImage s f info t =
      (renameContainer
        (createContainer (renameContainer s t (tempNameOf t))
          (buildCreatePayload info cd cd.Config.Image t))
        (tempNameOf t) t,
       [(EngineCall.inspect t, true),
        (EngineCall.rename t (tempNameOf t), true),
        (EngineCall.create t cd.Config.Image, true),
        (EngineCall.stop (tempNameOf t), true),
        (EngineCall.rename (tempNameOf t) t, true)],
       UpdateOutcome.rolledBack StepName.stop) := by
  unfold updateImage
  rw [hfind]
  simp [h1, h2, h3, h5, h4, rollbackStep]

/-- When only the removal of the old container fails, the catch block still
fires after the full pipeline and performs the rollback rename. -/
theorem updateImage_removeFail_eq (s : DockerState) (f : Faults) (info cd : Container)
    (t : String) (hfind : s.containers.find? (fun c => c.name == t) = some cd)
    (h1 : f.inspectFail = false) (h2 : f.renameFail = false)
    (h3 : f.createFail = false) (h5 : f.stopFail = false)
    (h6 : f.startFail = false) (h7 : f.removeFail = true)
    (h4 : f.rollbackRenameFail = false) :
    updateImage s f info t =
      (renameContainer
        (startContainer
          (stopContainer
            (createContainer (renameContainer s t (tempNameOf t))
              (buildCreatePayload info cd cd.Config.Image t))
            (tempNameOf t))
          t)
        (tempNameOf t) t,
       [(EngineCall.inspect t, true),
        (EngineCall.rename t (tempNameOf t), true),
        (EngineCall.create t cd.Config.Image, true),
        (EngineCall.stop (tempNameOf t), true),
        (EngineCall.start t, false),
        (EngineCall.remove (tempNameOf t), true),
        (EngineCall.rename (tempNameOf t) t, true)],
       UpdateOutcome.rolledBack StepName.remove) := by
  unfold updateImage
  rw [hfind]
  simp [h1, h2, h3, h5, h6, h7, h4, rollbackStep]

/-- Renaming every container named `t` to `temp` and back restores the
original list when nothing was named `temp` to begin with. -/
theorem rename_roundtrip_list (t temp : String) (L : List Container)
    (h : ∀ c ∈ L, (c.name == temp) = false) :
    List.map (fun c : Container => if c.name == temp then { c with name := t } else c)
      (List.map (fun c : Container => if c.name == t then { c with name := temp } else c)
        L) = L := by
  rw [List.map_map]
  refine (List.map_congr_left ?_).trans (List.map_id L)
  intro c hc2
  have hc : (c.name == temp) = false := h c hc2
  by_cases h1 : (c.name == t) = true
  · have ht : c.name = t := by rwa [beq_iff_eq] at h1
    obtain ⟨cid, cname, ccfg, chc, cports, cimg, crun⟩ := c
    simp_all [Function.comp]
  · obtain ⟨cid, cname, ccfg, chc, cports, cimg, crun⟩ := c
    simp_all [Function.comp]

/-- The rename, stop, (possibly vacuous) start, rename-back pipeline of the
removal-failure path: every container named `t` comes back named `t` but
stopped; everything else is untouched (nothing was named `temp`). -/
theorem rename_stop_start_roundtrip_list (t temp : String) (hne2 : (temp == t) = false)
    (L : List Container) (h : ∀ c ∈ L, (c.name == temp) = false) :
    List.map (fun c : Container => if c.name == temp then { c with name := t } else c)
      (List.map (fun c : Container => if c.name == t then { c with running := true } else c)
        (List.map (fun c : Container => if c.name == temp then { c with running := false } else c)
          (List.map (fun c : Container => if c.name == t then { c with name := temp } else c)
            L))) =
    List.map (fun c : Container => if c.name == t then { c with running := false } else c) L := by
  rw [List.map_map, List.map_map, List.map_map]
  apply List.map_congr_left
  intro c hc2
  have hc : (c.name == temp) = false := h c hc2
  by_cases h1 : (c.name == t) = true
  · have ht : c.name = t := by rwa [beq_iff_eq] at h1
    obtain ⟨cid, cname, ccfg, chc, cports, cimg, crun⟩ := c
    simp_all [Function.comp]
  · obtain ⟨cid, cname, ccfg, chc, cports, cimg, crun⟩ := c
    simp_all [Function.comp]

/-! Claim C3. -/

/-- C3 counterexample: when starting the new container fails (all other
steps succeeding), no rollback happens — the replacement resolves as
completed, the rollback rename of the temporary name back to the target
name is never issued, and the original container (id `id0`) is gone from
the final state instead of being restored under `targetName`. -/
theorem C3_counterexample_start_failure :
    (updateImage s0 startFailOnly web "web").2.2 = UpdateOutcome.completed ∧
    ((updateImage s0 startFailOnly web "web").2.1.contains
      (EngineCall.rename (tempNameOf "web") "web", true)) = false ∧
    ((updateImage s0 startFailOnly web "web").1.containers.all
      (fun c => !(c.Id == "id0"))) = true := by decide

/-- C3 (amended): a failure of create or of stop triggers the rollback
rename of `tempName` back to `targetName`.  After a create failure the
engine state is exactly the initial one (the original restored, no
temporary name).  After a stop failure the original is restored under
`targetName` but the already-created new container also remains, likewise
named `targetName`.  A failure of the (unawaited) start triggers no
rollback at all: whenever create, stop and remove succeed the replacement
resolves as completed regardless of the start's outcome. -/
theorem C3_amended_rollback_on_create_or_stop (s : DockerState) (f : Faults)
    (info cd : Container) (t : String)
    (hfind : s.containers.find? (fun c => c.name == t) = some cd)
    (h1 : f.inspectFail = false) (h2 : f.renameFail = false)
    (h4 : f.rollbackRenameFail = false)
    (htemp : countName s (tempNameOf t) = 0) :
    (f.createFail = true →
      (updateImage s f info t).1 = s ∧
      (updateImage s f info t).2.2 = UpdateOutcome.rolledBack StepName.create) ∧
    (f.createFail = false → f.stopFail = true →
      (updateImage s f info t).1.containers =
        s.containers ++
          [{ Id := "created:" ++ t
             name := t
             Config := { Image := cd.Config.Image, Env := cd.Config.Env,
                         Labels := cd.Config.Labels }
             HostConfig := { PortBindings := cd.NetworkSettingsPorts, Binds := [] }
             NetworkSettingsPorts := cd.NetworkSettingsPorts
             Image := (lookupImage s cd.Config.Image).getD ""
             running := false }] ∧
      (updateImage s f info t).2.2 = UpdateOutcome.rolledBack StepName.stop) ∧
    (f.createFail = false → f.stopFail = false → f.removeFail = false →
      (updateImage s f info t).2.2 = UpdateOutcome.completed) := by
  have hnone : ∀ c ∈ s.containers, (c.name == tempNameOf t) = false := by
    intro c hcmem
    by_contra hx
    have hxt : (c.name == tempNameOf t) = true := by
      revert hx
      cases c.name == tempNameOf t <;> simp
    have hpos : 0 < countName s (tempNameOf t) := by
      unfold countName
      exact List.countP_pos_iff.mpr ⟨c, hcmem, hxt⟩
    omega
  refine ⟨?_, ?_, ?_⟩
  · intro hc3
    rw [updateImage_createFail_eq s f info cd t hfind h1 h2 hc3 h4]
    refine ⟨?_, rfl⟩
    show renameContainer (renameContainer s t (tempNameOf t)) (tempNameOf t) t = s
    unfold renameContainer
    rw [rename_roundtrip_list t (tempNameOf t) s.containers hnone]
  · intro hc3 hc5
    rw [updateImage_stopFail_eq s f info cd t hfind h1 h2 hc3 hc5 h4]
    refine ⟨?_, rfl⟩
    simp only [renameContainer, createContainer, buildCreatePayload, lookupImage,
      List.map_append]
    rw [rename_roundtrip_list t (tempNameOf t) s.containers hnone]
    congr 1
    simp [name_beq_tempNameOf t]
  · intro hc3 hc5 hc7
    unfold updateImage
    rw [hfind]
    simp [h1, h2, hc3, hc5, hc7]

/-- C3 witness: the amended behaviour at the concrete state `s0`, under a
create failure and under a stop failure. -/
theorem C3_amended_rollback_witness :
    ((updateImage s0 createFailOnly web "web").1 = s0 ∧
     (updateImage s0 createFailOnly web "web").2.2 =
       UpdateOutcome.rolledBack StepName.create) ∧
    (updateImage s0 stopFailOnly web "web").2.2 =
      UpdateOutcome.rolledBack StepName.stop :=
  ⟨(C3_amended_rollback_on_create_or_stop s0 createFailOnly web web "web"
      (by decide) rfl rfl rfl (by decide)).1 rfl,
   ((C3_amended_rollback_on_create_or_stop s0 stopFailOnly web web "web"
      (by decide) rfl rfl rfl (by decide)).2.1 rfl rfl).2⟩

/-! Claim C4. -/

/-- C4 counterexample: when only the removal of the old container fails,
the coordinator does attempt the rollback rename of `tempName` back to
`targetName` — the trace contains that rename and the outcome reports the
rollback path, contradicting "no rename of tempName back to targetName is
attempted". -/
theorem C4_counterexample_remove_failure :
    ((updateImage s0 removeFailOnly web "web").2.1.contains
      (EngineCall.rename (tempNameOf "web") "web", true)) = true ∧
    (updateImage s0 removeFailOnly web "web").2.2 =
      UpdateOutcome.rolledBack StepName.remove := by decide

/-- C4 (amended): a removal failure after steps 1-5 succeeded lands in the
same catch block as create/stop failures: the coordinator reports the
rollback outcome for the remove step and issues the rollback rename of
`tempName` back to `targetName` as its final engine call.  As a result the
old container (stopped) is renamed back to `targetName` while the new,
started container also keeps `targetName`: both end up under the target
name instead of the new container alone. -/
theorem C4_amended_remove_failure_rolls_back (s : DockerState) (f : Faults)
    (info cd : Container) (t : String)
    (hfind : s.containers.find? (fun c => c.name == t) = some cd)
    (h1 : f.inspectFail = false) (h2 : f.renameFail = false)
    (h3 : f.createFail = false) (h5 : f.stopFail = false)
    (h6 : f.startFail = false) (h7 : f.removeFail = true)
    (h4 : f.rollbackRenameFail = false)
    (htemp : countName s (tempNameOf t) = 0) :
    (updateImage s f info t).2.2 = UpdateOutcome.rolledBack StepName.remove ∧
    (updateImage s f info t).2.1 =
      [(EngineCall.inspect t, true),
       (EngineCall.rename t (tempNameOf t), true),
       (EngineCall.create t cd.Config.Image, true),
       (EngineCall.stop (tempNameOf t), true),
       (EngineCall.start t, false),
       (EngineCall.remove (tempNameOf t), true),
       (EngineCall.rename (tempNameOf t) t, true)] ∧
    (updateImage s f info t).1.containers =
      s.containers.map (fun c => if c.name == t then { c with running := false } else c) ++
        [{ Id := "created:" ++ t
           name := t
           Config := { Image := cd.Config.Image, Env := cd.Config.Env,
                       Labels := cd.Config.Labels }
           HostConfig := { PortBindings := cd.NetworkSettingsPorts, Binds := [] }
           NetworkSettingsPorts := cd.NetworkSettingsPorts
           Image := (lookupImage s cd.Config.Image).getD ""
           running := true }] := by
  have hnone : ∀ c ∈ s.containers, (c.name == tempNameOf t) = false := by
    intro c hcmem
    by_contra hx
    have hxt : (c.name == tempNameOf t) = true := by
      revert hx
      cases c.name == tempNameOf t <;> simp
    have hpos : 0 < countName s (tempNameOf t) := by
      unfold countName
      exact List.countP_pos_iff.mpr ⟨c, hcmem, hxt⟩
    omega
  rw [updateImage_removeFail_eq s f info cd t hfind h1 h2 h3 h5 h6 h7 h4]
  refine ⟨rfl, rfl, ?_⟩
  simp only [renameContainer, createContainer, stopContainer, startContainer,
    buildCreatePayload, lookupImage, List.map_append]
  rw [rename_stop_start_roundtrip_list t (tempNameOf t) (tempNameOf_beq_name t)
    s.containers hnone]
  congr 1
  simp [name_beq_tempNameOf t]

/-- C4 witness: the amended behaviour at the concrete state `s0` under a
removal failure. -/
theorem C4_amended_remove_failure_witness :
    (updateImage s0 removeFailOnly web "web").2.2 =
      UpdateOutcome.rolledBack StepName.remove ∧
    (updateImage s0 removeFailOnly web "web").2.1 =
      [(EngineCall.inspect "web", true),
       (EngineCall.rename "web" (tempNameOf "web"), true),
       (EngineCall.create "web" web.Config.Image, true),
       (EngineCall.stop (tempNameOf "web"), true),
       (EngineCall.start "web", false),
       (EngineCall.remove (tempNameOf "web"), true),
       (EngineCall.rename (tempNameOf "web") "web", true)] ∧
    (updateImage s0 removeFailOnly web "web").1.containers =
      s0.containers.map
        (fun c => if c.name == "web" then { c with running := false } else c) ++
        [{ Id := "created:" ++ "web"
           name := "web"
           Config := { Image := web.Config.Image, Env := web.Config.Env,
                       Labels := web.Config.Labels }
           HostConfig := { PortBindings := web.NetworkSettingsPorts, Binds := [] }
           NetworkSettingsPorts := web.NetworkSettingsPorts
           Image := (lookupImage s0 web.Config.Image).getD ""
           running := true }] :=
  C4_amended_remove_failure_rolls_back s0 removeFailOnly web web "web"
    (by decide) rfl rfl rfl rfl rfl rfl rfl (by decide)

/-! Claim C5. -/

/-- As long as its initial inspect finds the container and does not fail,
and the rollback rename does not fail, `updateImage` cannot reject — every
path fulfills with `completed` or `rolledBack`. -/
theorem updateImage_not_rejected (s : DockerState) (f : Faults) (info : Container)
    (t : String) (h1 : f.inspectFail = false) (h4 : f.rollbackRenameFail = false)
    (hex : ∃ c ∈ s.containers, (c.name == t) = true) :
    ∀ e, (updateImage s f info t).2.2 ≠ UpdateOutcome.rejected e := by
  obtain ⟨cd, hfind⟩ : ∃ cd, s.containers.find? (fun c => c.name == t) = some cd :=
    Option.isSome_iff_exists.mp (List.find?_isSome.mpr hex)
  intro e
  unfold updateImage
  rw [hfind]
  simp only [h1, Bool.false_eq_true, if_false]
  split_ifs <;> simp [rollbackStep, h4]

/-- The loop of a reconciliation pass resolves whenever the replacement it
may launch cannot reject, provided every container it may act on exists in
the engine state (drift detection preserves the container list, so this is
invariant along the loop). -/
theorem passLoop_resolves (uf : Faults) (h1 : uf.inspectFail = false)
    (h4 : uf.rollbackRenameFail = false) :
    ∀ (cs : List Container) (s : DockerState) (fs : List DetectFaults),
      (∀ c ∈ cs, c ∈ s.containers) →
      passResolves (passLoop s fs uf cs).2.2 = true := by
  intro cs
  induction cs with
  | nil => intro s fs hsub; rfl
  | cons c rest ih =>
    intro s fs hsub
    unfold passLoop
    dsimp only
    by_cases hflag : (checkIfImageNeedsUpdate s (fs.headD default) c.name).2 = true
    · rw [if_pos hflag]
      have hex : ∃ x ∈ (checkIfImageNeedsUpdate s (fs.headD default) c.name).1.containers,
          (x.name == c.name) = true := by
        refine ⟨c, ?_, beq_self_eq_true c.name⟩
        rw [checkIfImageNeedsUpdate_containers]
        exact hsub c (List.mem_cons_self c rest)
      have hnr := updateImage_not_rejected
        (checkIfImageNeedsUpdate s (fs.headD default) c.name).1 uf c c.name h1 h4 hex
      cases hout : (updateImage
          (checkIfImageNeedsUpdate s (fs.headD default) c.name).1 uf c c.name).2.2 with
      | completed => simp [passResolves, hout]
      | rolledBack st => simp [passResolves, hout]
      | rejected e => exact absurd hout (hnr e)
    · rw [if_neg hflag]
      exact ih (checkIfImageNeedsUpdate s (fs.headD default) c.name).1 fs.tail
        (fun x hx => by
          rw [checkIfImageNeedsUpdate_containers]
          exact hsub x (List.mem_cons_of_mem c hx))

/-- C5 counterexample: with one drifted running container, a create failure
followed by a rollback-rename failure makes the pass's own promise reject —
`checkForUpdates` does not resolve normally, because it returns the
`updateImage` promise from inside its `try` without awaiting it, so the
rejection is not caught. -/
theorem C5_counterexample_pass_rejects :
    (checkForUpdates s0 false [detectOk] createAndRollbackFail).2.2 =
      PassResult.replaced "web" (UpdateOutcome.rejected JsError.rollbackRenameFailed) ∧
    passResolves (checkForUpdates s0 false [detectOk] createAndRollbackFail).2.2 = false := by
  decide

/-- C5 (amended): a listing failure and every drift-detection error are
caught inside the pass, but the replacement promise is returned un-awaited
from inside the `try`, so its rejection escapes.  The pass resolves
normally whenever the replacement cannot reject — that is, whenever the
replacement's own inspect call and the rollback rename do not fail. -/
theorem C5_amended_pass_resolution (s : DockerState) (listFail : Bool)
    (fs : List DetectFaults) (uf : Faults)
    (h1 : uf.inspectFail = false) (h4 : uf.rollbackRenameFail = false) :
    passResolves (checkForUpdates s listFail fs uf).2.2 = true := by
  unfold checkForUpdates
  by_cases hl : listFail = true
  · rw [if_pos hl]
    rfl
  · rw [if_neg hl]
    refine passLoop_resolves uf h1 h4 (listContainers s) s fs (fun c hc => ?_)
    unfold listContainers at hc
    exact List.mem_of_mem_filter hc

/-- C5 witness: the amended resolution guarantee at the concrete state
`s0`, where the pass replaces the drifted container and resolves. -/
theorem C5_amended_pass_resolution_witness :
    passResolves (checkForUpdates s0 false [detectOk] noFaults).2.2 = true :=
  C5_amended_pass_resolution s0 false [detectOk] noFaults rfl rfl

/-! Claim C6. -/

/-- C6 counterexample: at a state with actual drift, a failing local image
inspect makes drift detection return `false`, not the fail-safe `true` —
the inner catch conflates an image-inspect engine failure with
image-not-found, so a failure while fetching the image state does not yield
drift. -/
theorem C6_counterexample_image_inspect_failure :
    detectImageInspectFail.imageInspectFail = true ∧
    checkIfImageNeedsUpdate s0 detectImageInspectFail "web" = (s0, false) := by decide

/-- C6 (amended): the fail-safe drift classification covers exactly the
errors that reach the outer catch: a container inspect failure (or a
missing container) yields `true`, and so does a hard pull error; but a
local image inspect failure is caught by the inner handler, treated as "no
local image", and yields `false`. -/
theorem C6_amended_fail_safe_scope (s : DockerState) (f : DetectFaults) (n : String)
    (cd : Container) :
    (f.containerInspectFail = true → checkIfImageNeedsUpdate s f n = (s, true)) ∧
    (f.pull = PullSpec.err → checkIfImageNeedsUpdate s f n = (s, true)) ∧
    (s.containers.find? (fun c => c.name == n) = some cd →
      f.containerInspectFail = false → f.imageInspectFail = true →
      f.pull ≠ PullSpec.err →
      (checkIfImageNeedsUpdate s f n).2 = false) := by
  refine ⟨?_, ?_, ?_⟩
  · intro hci
    unfold checkIfImageNeedsUpdate
    cases hf : s.containers.find? (fun c => c.name == n) with
    | none => rfl
    | some cd2 => simp [hci]
  · intro hp
    unfold checkIfImageNeedsUpdate
    cases hf : s.containers.find? (fun c => c.name == n) with
    | none => rfl
    | some cd2 =>
      by_cases hci : f.containerInspectFail = true
      · simp [hci]
      · simp [hci, hp]
  · intro hfind hci hii hp
    unfold checkIfImageNeedsUpdate
    rw [hfind]
    simp only [hci, Bool.false_eq_true, if_false]
    cases hpv : f.pull with
    | err => exact absurd hpv hp
    | ok id2 => simp [detectLocal, hii]
    | auth => simp [detectLocal, hii]
    | notFound => simp [detectLocal, hii]

/-- C6 witness: a container inspect failure yields drift, while a local
image inspect failure yields no-update, both at concrete states. -/
theorem C6_amended_fail_safe_scope_witness :
    (checkIfImageNeedsUpdate s0
      { containerInspectFail := true, pull := PullSpec.notFound,
        imageInspectFail := false } "web" = (s0, true)) ∧
    ((checkIfImageNeedsUpdate s0 detectImageInspectFail "web").2 = false) :=
  ⟨(C6_amended_fail_safe_scope s0
      { containerInspectFail := true, pull := PullSpec.notFound,
        imageInspectFail := false } "web" web).1 rfl,
   (C6_amended_fail_safe_scope s0 detectImageInspectFail "web" web).2.2
     (by decide) rfl rfl (by decide)⟩

/-! Claim C7. -/

/-- C7: a container whose image reference has no locally cached image after
the pull attempt (its inspect calls succeeding, the pull not failing hard)
is classified as no-update. -/
theorem C7_no_local_image_no_update (s : DockerState) (f : DetectFaults) (n : String)
    (cd : Container)
    (hfind : s.containers.find? (fun c => c.name == n) = some cd)
    (hci : f.containerInspectFail = false) (hp : f.pull ≠ PullSpec.err)
    (hii : f.imageInspectFail = false)
    (hnolocal : lookupImage (afterPull s f.pull cd.Config.Image) cd.Config.Image = none) :
    (checkIfImageNeedsUpdate s f n).2 = false := by
  unfold checkIfImageNeedsUpdate
  rw [hfind]
  simp only [hci, Bool.false_eq_true, if_false]
  cases hpv : f.pull with
  | err => exact absurd hpv hp
  | ok id2 =>
    rw [hpv] at hnolocal
    have hsome : lookupImage (afterPull s (PullSpec.ok id2) cd.Config.Image)
        cd.Config.Image = some id2 := by
      simp [afterPull, setImage, lookupImage]
    rw [hsome] at hnolocal
    exact absurd hnolocal (by simp)
  | auth =>
    rw [hpv] at hnolocal
    simp only [afterPull] at hnolocal
    simp [detectLocal, afterPull, hii, hnolocal]
  | notFound =>
    rw [hpv] at hnolocal
    simp only [afterPull] at hnolocal
    simp [detectLocal, afterPull, hii, hnolocal]

/-- C7 witness: at the concrete state with an empty image cache and a soft
registry miss, detection reports no-update. -/
theorem C7_no_local_image_no_update_witness :
    (sNoImage.containers.find? (fun c => c.name == "web") = some web) ∧
    (lookupImage (afterPull sNoImage detectOk.pull web.Config.Image)
      web.Config.Image = none) ∧
    (checkIfImageNeedsUpdate sNoImage detectOk "web").2 = false :=
  ⟨by decide, by decide,
   C7_no_local_image_no_update sNoImage detectOk "web" web (by decide) rfl
     (by decide) rfl (by decide)⟩

/-! Claim C8. -/

/-- C8 counterexample: at a state where the local comparison reports
no-drift, a hard pull error makes detection return drift `true`
immediately — it does not proceed to the local comparison as claimed, whose
result at the same state is `false`. -/
theorem C8_counterexample_pull_error_aborts :
    checkIfImageNeedsUpdate sMatch detectPullErr "web" = (sMatch, true) ∧
    detectLocal sMatch detectOk web.Image web.Config.Image = (sMatch, false) := by
  decide

/-- C8 (amended): a pull failure other than 401/404 rejects
`getRemoteImageId`; the rejection is caught by the outer catch of
`checkIfImageNeedsUpdate`, which immediately returns the fail-safe drift
result without reaching the local-image comparison. -/
theorem C8_amended_pull_error_fail_safe (s : DockerState) (f : DetectFaults)
    (n : String) (hp : f.pull = PullSpec.err) :
    checkIfImageNeedsUpdate s f n = (s, true) := by
  unfold checkIfImageNeedsUpdate
  cases hf : s.containers.find? (fun c => c.name == n) with
  | none => rfl
  | some cd =>
    by_cases hci : f.containerInspectFail = true
    · simp [hci]
    · simp [hci, hp]

/-- C8 witness: the amended fail-safe behaviour at the concrete state. -/
theorem C8_amended_pull_error_fail_safe_witness :
    checkIfImageNeedsUpdate sNoImage detectPullErr "web" = (sNoImage, true) :=
  C8_amended_pull_error_fail_safe sNoImage detectPullErr "web" rfl

/-! Claim C9. -/

/-- C9 counterexample: the inspected record carries a bind mount, but the
creation payload's `HostConfig` is a fresh object holding only the port
bindings — the mount is not copied, so the runtime configuration is not
carried verbatim with only name and image changed. -/
theorem C9_counterexample_binds_dropped :
    web.HostConfig.Binds = ["/data:/data"] ∧
    (buildCreatePayload web web web.Config.Image "web").HostConfig.Binds = [] ∧
    (buildCreatePayload web web web.Config.Image "web").HostConfig ≠ web.HostConfig := by
  decide

/-- C9 (amended): the creation payload copies environment and labels from
the inspected config, carries the list-entry id, forces the name to
`targetName` and the image to the image reference, and replaces the host
configuration wholesale with an object holding only the port bindings taken
from the inspected `NetworkSettings.Ports` — the inspected `HostConfig`
(bind mounts included) is not carried over. -/
theorem C9_amended_payload_contents (info cd : Container) (img t : String) :
    (buildCreatePayload info cd img t).name = t ∧
    (buildCreatePayload info cd img t).Image = img ∧
    (buildCreatePayload info cd img t).Env = cd.Config.Env ∧
    (buildCreatePayload info cd img t).Labels = cd.Config.Labels ∧
    (buildCreatePayload info cd img t).Id = info.Id ∧
    (buildCreatePayload info cd img t).HostConfig.PortBindings =
      cd.NetworkSettingsPorts ∧
    (buildCreatePayload info cd img t).HostConfig.Binds = [] :=
  ⟨rfl, rfl, rfl, rfl, rfl, rfl, rfl⟩

/-! Claim C10. -/

/-- Structure of the pass loop: when nothing is flagged it evaluates every
container in listing order and leaves the container list untouched; when a
container is flagged, the evaluated names are exactly a prefix of the
listing ending at the flagged container, whose replacement was run. -/
theorem passLoop_spec (uf : Faults) :
    ∀ (cs : List Container) (s : DockerState) (fs : List DetectFaults),
      ((passLoop s fs uf cs).2.2 = PassResult.noneNeeded →
        (passLoop s fs uf cs).2.1 = cs.map (fun c => c.name) ∧
        (passLoop s fs uf cs).1.containers = s.containers) ∧
      (∀ nm out, (passLoop s fs uf cs).2.2 = PassResult.replaced nm out →
        (passLoop s fs uf cs).2.1.length ≤ cs.length ∧
        (passLoop s fs uf cs).2.1 =
          (cs.map (fun c => c.name)).take (passLoop s fs uf cs).2.1.length ∧
        (passLoop s fs uf cs).2.1.getLast? = some nm) := by
  intro cs
  induction cs with
  | nil =>
    intro s fs
    exact ⟨fun _ => ⟨rfl, rfl⟩, fun nm out h => nomatch h⟩
  | cons c rest ih =>
    intro s fs
    unfold passLoop
    dsimp only
    by_cases hflag : (checkIfImageNeedsUpdate s (fs.headD default) c.name).2 = true
    · rw [if_pos hflag]
      constructor
      · intro h
        exact absurd h (by simp)
      · intro nm out h
        injection h with hnm hout
        subst hnm
        exact ⟨by simp, by simp, rfl⟩
    · rw [if_neg hflag]
      have ihr := ih (checkIfImageNeedsUpdate s (fs.headD default) c.name).1 fs.tail
      constructor
      · intro h
        obtain ⟨hchk, hcont⟩ := ihr.1 h
        constructor
        · simp only [List.map_cons]
          rw [hchk]
        · rw [hcont, checkIfImageNeedsUpdate_containers]
      · intro nm out h
        obtain ⟨hlen, htake, hlast⟩ := ihr.2 nm out h
        refine ⟨?_, ?_, ?_⟩
        · simp only [List.length_cons]
          omega
        · simp only [List.map_cons, List.length_cons, List.take_succ_cons]
          rw [← htake]
        · cases hcase : (passLoop (checkIfImageNeedsUpdate s
              (fs.headD default) c.name).1 fs.tail uf rest).2.1 with
          | nil => rw [hcase] at hlast; exact nomatch hlast
          | cons a l =>
            rw [hcase] at hlast
            show (c.name :: a :: l).getLast? = some nm
            rw [List.getLast?_cons_cons]
            exact hlast

/-- C10: with the listing succeeding, a reconciliation pass evaluates drift
detection in listing order; if no container needs an update every listed
container is evaluated and the container list is not mutated; on the first
flagged container the pass runs the replacement and returns, so the
evaluated names form exactly the prefix of the listing ending at that
container — the rest are not evaluated in that pass. -/
theorem C10_single_update_per_pass (s : DockerState) (fs : List DetectFaults)
    (uf : Faults) :
    ((checkForUpdates s false fs uf).2.2 = PassResult.noneNeeded →
      (checkForUpdates s false fs uf).2.1 =
        (listContainers s).map (fun c => c.name) ∧
      (checkForUpdates s false fs uf).1.containers = s.containers) ∧
    (∀ nm out, (checkForUpdates s false fs uf).2.2 = PassResult.replaced nm out →
      (checkForUpdates s false fs uf).2.1.length ≤ (listContainers s).length ∧
      (checkForUpdates s false fs uf).2.1 =
        ((listContainers s).map (fun c => c.name)).take
          (checkForUpdates s false fs uf).2.1.length ∧
      (checkForUpdates s false fs uf).2.1.getLast? = some nm) :=
  passLoop_spec uf (listContainers s) s fs

/-- C10 witness: at `sMatch` nothing is flagged and the single container is
evaluated without mutation; at `s0` the first (and only) container is
flagged, replaced, and the evaluated names are the one-element prefix. -/
theorem C10_single_update_per_pass_witness :
    ((checkForUpdates sMatch false [detectOk] noFaults).2.1 =
        (listContainers sMatch).map (fun c => c.name) ∧
     (checkForUpdates sMatch false [detectOk] noFaults).1.containers =
        sMatch.containers) ∧
    ((checkForUpdates s0 false [detectOk] noFaults).2.1.length ≤
        (listContainers s0).length ∧
     (checkForUpdates s0 false [detectOk] noFaults).2.1 =
        ((listContainers s0).map (fun c => c.name)).take
          (checkForUpdates s0 false [detectOk] noFaults).2.1.length ∧
     (checkForUpdates s0 false [detectOk] noFaults).2.1.getLast? = some "web") :=
  ⟨(C10_single_update_per_pass sMatch [detectOk] noFaults).1 (by decide),
   (C10_single_update_per_pass s0 [detectOk] noFaults).2 "web"
     UpdateOutcome.completed (by decide)⟩
